import Mathlib

/-!
# GoGameServer: message registry and service composition core

A shallow embedding of `src/protos/common.go` (the message registry) and of the
registration, pool and lookup operations of `src/core/service/service.go`,
followed by the properties established about them.

Conventions of the embedding

* A Go `map[K]V` is a function `K → Option V`; `none` is an absent key.  A nil
  map reads like an empty one, and every map written by the embedded code has
  been created with `make` before its first write.
* A Go pointer to a collaborator object (`*ipc.Client`, `*mysql.Client`, ...) is
  `Option Nat`: `none` is the nil pointer, `some a` the object with identity `a`.
* A panic or a fatal `CheckError` ends the process; the embedded operation then
  returns `Except.error` and the state it was mutating is gone.
* Collaborators that are not part of the embedded code (consul, ipc, rpc, mysql,
  the configuration) appear as parameters of the operation that calls them.
-/

namespace GoGameServer

/-! ## Go values as package `reflect` sees them -/

/-- A Go type: a named non-pointer type, or the pointer type to another type. -/
inductive GoType where
  | named (name : String)
  | ptr (elem : GoType)
  deriving DecidableEq, Repr

/-- A value of Go type `reflect.Type`; `none` is the nil `Type`. -/
abbrev ReflectType := Option GoType

/-- A value of type `interface{}`: the nil interface, or a value with its
dynamic type.  The payload stands for the contents; `0` is the zero value. -/
inductive Iface where
  | nil
  | val (type : GoType) (payload : Nat)
  deriving DecidableEq, Repr

/-- The function `reflect.TypeOf`. -/
def reflectTypeOf : Iface → ReflectType
  | .nil => none
  | .val t _ => some t

/-- The expression `reflect.New(t).Interface()`: a pointer to a new zero value
of type `t`.  `reflect.New` panics on the nil `Type`. -/
def reflectNew : ReflectType → Except String Iface
  | none => .error "reflect: New(nil)"
  | some t => .ok (.val (.ptr t) 0)

/-- The type assertion `v.(proto.Message)`: it panics unless the dynamic type of
`v` implements `proto.Message`; which types do is given by `implementsMessage`. -/
def assertMessage (implementsMessage : GoType → Bool) : Iface → Except String Iface
  | .nil => .error "interface conversion: interface is nil, not proto.Message"
  | .val t x =>
    if implementsMessage t then .ok (.val t x)
    else .error "interface conversion: missing method of proto.Message"

/-- A Go map as a function from keys to optional values. -/
abbrev GoMap (K V : Type) := K → Option V

/-- The empty map, `make(map[K]V)`. -/
def GoMap.empty {K V : Type} : GoMap K V := fun _ => none

/-- The assignment `m[k] = v`. -/
def GoMap.set {K V : Type} [DecidableEq K] (m : GoMap K V) (k : K) (v : V) : GoMap K V :=
  fun j => if j = k then some v else m j

/-! ## Package `protos` -/

/-- A message identifier, Go type `uint16`. -/
abbrev MsgID := Fin 65536

/-- A line written through `ERR` by package `protos`. -/
inductive ProtosLog where
  | noMsgID (msgID : MsgID)
  | noMsgType (msgType : ReflectType)
  deriving DecidableEq, Repr

/-- The package-level state of `protos`: the two tables, and the error lines
logged so far. -/
structure Protos where
  MsgObjectMap : GoMap MsgID ReflectType
  MsgIDMap : GoMap ReflectType MsgID
  errLog : List ProtosLog

/-- The state at package initialisation: both tables empty. -/
def Protos.init : Protos :=
  { MsgObjectMap := GoMap.empty, MsgIDMap := GoMap.empty, errLog := [] }

/-- The function `SetMsg(msgID, data)`: records the type of `data` under `msgID`, and
`msgID` under the type of a pointer to a new value of that type. -/
def SetMsg (p : Protos) (msgID : MsgID) (data : Iface) : Except String Protos :=
  let msgType := reflectTypeOf data
  let p1 : Protos := { p with MsgObjectMap := p.MsgObjectMap.set msgID msgType }
  match reflectNew msgType with
  | .error e => .error e
  | .ok v => .ok { p1 with MsgIDMap := p1.MsgIDMap.set (reflectTypeOf v) msgID }

/-- The function `GetMsgObject(msgID)`: a new instance of the type recorded under `msgID`,
or nil after logging when there is none. -/
def GetMsgObject (implementsMessage : GoType → Bool) (p : Protos) (msgID : MsgID) :
    Except String (Iface × Protos) :=
  match p.MsgObjectMap msgID with
  | some msgType =>
    match reflectNew msgType with
    | .error e => .error e
    | .ok v =>
      match assertMessage implementsMessage v with
      | .error e => .error e
      | .ok m => .ok (m, p)
  | none => .ok (.nil, { p with errLog := p.errLog ++ [.noMsgID msgID] })

/-- The function `GetMsgID(msg)`: the identifier recorded under the type of `msg`, or `0`
after logging when there is none. -/
def GetMsgID (p : Protos) (msg : Iface) : MsgID × Protos :=
  let msgType := reflectTypeOf msg
  match p.MsgIDMap msgType with
  | some msgID => (msgID, p)
  | none => (0, { p with errLog := p.errLog ++ [.noMsgType msgType] })

/-- A sequence of `SetMsg` calls, run in order; it stops at the first panic. -/
def runSetMsg (p : Protos) : List (MsgID × Iface) → Except String Protos
  | [] => .ok p
  | c :: rest =>
    match SetMsg p c.1 c.2 with
    | .error e => .error e
    | .ok p1 => runSetMsg p1 rest

/-! ## Package `service` -/

/-- A Go pointer to a collaborator object: nil, or the identity of the object. -/
abbrev Ptr := Option Nat

/-- A configuration section, Go type `map[string]interface{}`; the embedded code
only hands it on to a collaborator. -/
abbrev ConfigMap := List (String × String)

/-- The constants of package `core/consts/serviceType`.  The package is not among
the sources, so the operations take its constants as a parameter. -/
structure ServiceTypeConsts where
  HTTP : String
  WS : String
  IPC : String
  RPC : String

/-- The struct `Service`. -/
structure Service where
  env : String
  name : String
  id : Int
  ip : String
  ports : GoMap String String
  ipcServer : Ptr
  ipcClients : GoMap String Ptr
  rpcClients : GoMap String Ptr
  redisClients : GoMap String Ptr
  dbClients : GoMap String Ptr
  wsServer : Ptr

/-- What an operation of `Service` does to the outside: a call of
`consul.NewServive`, or a line written through `ERR` or `INFO`. -/
inductive Event where
  | consulNewServive (ip name : String) (id : Int) (port : String)
  | ERR (text : String) (args : List String)
  | INFO (text : String) (args : List String)
  deriving DecidableEq, Repr

/-- The record handed to service discovery by one registration. -/
structure DiscoveryRecord where
  ip : String
  name : String
  id : Int
  port : String
  deriving DecidableEq, Repr

/-- The discovery registrations among a list of events, in order. -/
def discoveryRegistrations : List Event → List DiscoveryRecord
  | [] => []
  | .consulNewServive ip name id port :: rest =>
    { ip := ip, name := name, id := id, port := port } :: discoveryRegistrations rest
  | .ERR _ _ :: rest => discoveryRegistrations rest
  | .INFO _ _ :: rest => discoveryRegistrations rest

/-- The outcome of an operation: the events it caused, and the state it leaves
behind, or the fault that ended the process. -/
structure Outcome (σ : Type) where
  events : List Event
  result : Except String σ

/-- Modelled from the spec: `CheckError` of package `core/libs` is not among the
sources.  Any error during startup is fatal and aborts the process; without
an error the caller continues. -/
def CheckError : Option String → Except String Unit
  | none => .ok ()
  | some err => .error err

/-- The struct literal of `NewService`: the name and the local address are set,
`ports` is an empty map, every other field has its zero value.  `initArgv` then
stores the environment and the instance id parsed from the command line, after
`CheckError` on the error of `argv.Init()`.  The configuration, the logging
setup and the periodic probe of `init` do not touch the struct and are left
out. -/
def NewService (localIp : String) (argvInit : Option String) (argvEnv : String)
    (argvServiceId : Int) (name : String) : Except String Service :=
  let service : Service :=
    { env := "", name := name, id := 0, ip := localIp, ports := GoMap.empty,
      ipcServer := none, ipcClients := GoMap.empty, rpcClients := GoMap.empty,
      redisClients := GoMap.empty, dbClients := GoMap.empty, wsServer := none }
  match CheckError argvInit with
  | .error e => .error e
  | .ok _ => .ok { service with env := argvEnv, id := argvServiceId }

/-- The function `packageServiceName`. -/
def packageServiceName (serviceType : String) (serviceName : String) : String :=
  "<" ++ serviceType ++ ">" ++ serviceName

/-- The method `registerService`.  `consulNewServive` gives the error returned by
the call of `consul.NewServive`, `none` for nil. -/
def registerService (consulNewServive : String → String → Int → String → Option String)
    (this : Service) (serviceType : String) (servicePort : String) : Outcome Service :=
  match this.ports serviceType with
  | some _ =>
    { events := [.ERR "该类型的Service已经在本进程内启用" [serviceType]], result := .ok this }
  | none =>
    let serviceName := packageServiceName serviceType this.name
    let err := consulNewServive this.ip serviceName this.id servicePort
    match CheckError err with
    | .error e =>
      { events := [.consulNewServive this.ip serviceName this.id servicePort],
        result := .error e }
    | .ok _ =>
      { events := [.consulNewServive this.ip serviceName this.id servicePort,
                   .INFO "join consul service..." [serviceName, servicePort]],
        result := .ok { this with ports := this.ports.set serviceType servicePort } }

/-- The loop of `StartMysql` over the configured databases, in the order in
which the `range` statement yields them.  A configuration value is `none` when
its dynamic type is not `map[string]interface{}`, so that the type assertion
panics.  `index` counts the iterations; a map has far fewer than `2^63` keys,
so the Go `int` does not wrap.  `mysqlNewClient` gives the client and the error
returned by `mysql.NewClient`. -/
def startMysqlLoop (mysqlNewClient : String → ConfigMap → Ptr × Option String) :
    List (String × Option ConfigMap) → Nat → Service → Outcome Service
  | [], _, this => { events := [], result := .ok this }
  | (key, mysqlConfig) :: rest, index, this =>
    let dbAliasName := if index = 0 then "default" else key
    match mysqlConfig with
    | none => { events := [], result := .error "interface conversion: not a map" }
    | some config =>
      let made := mysqlNewClient dbAliasName config
      match CheckError made.2 with
      | .error e => { events := [], result := .error e }
      | .ok _ =>
        let this1 : Service := { this with dbClients := this.dbClients.set key made.1 }
        let later := startMysqlLoop mysqlNewClient rest (index + 1) this1
        { events := .INFO ("mysql_" ++ key ++ "连接成功...") [] :: later.events,
          result := later.result }

/-- The method `StartMysql`.  `mysqlConfigs` is the result of
`config.GetMysqlConfig()`, listed in iteration order. -/
def StartMysql (mysqlNewClient : String → ConfigMap → Ptr × Option String)
    (mysqlConfigs : List (String × Option ConfigMap)) (this : Service) : Outcome Service :=
  let this1 : Service := { this with dbClients := GoMap.empty }
  startMysqlLoop mysqlNewClient mysqlConfigs 0 this1

/-- The loop of `StartIpcClient`.  `ipcNewClient k consulClient serviceName` is the
handle returned by the call of `ipc.NewClient` in iteration `k`. -/
def startIpcClientLoop (ServiceType : ServiceTypeConsts)
    (ipcNewClient : Nat → Ptr → String → Ptr) (consulClient : Ptr) :
    List String → Nat → Service → Service × List Event
  | [], _, this => (this, [])
  | serviceName :: rest, k, this =>
    let serviceName := packageServiceName ServiceType.IPC serviceName
    let this1 : Service :=
      { this with
        ipcClients := this.ipcClients.set serviceName (ipcNewClient k consulClient serviceName) }
    let later := startIpcClientLoop ServiceType ipcNewClient consulClient rest (k + 1) this1
    (later.1, .INFO "ipc client start..." [serviceName] :: later.2)

/-- The method `StartIpcClient`.  `consulNewClient` gives the client and the error
returned by `consul.NewClient()`. -/
def StartIpcClient (ServiceType : ServiceTypeConsts) (consulNewClient : Ptr × Option String)
    (ipcNewClient : Nat → Ptr → String → Ptr) (this : Service) (serviceNames : List String) :
    Outcome Service :=
  let this1 : Service := { this with ipcClients := GoMap.empty }
  match CheckError consulNewClient.2 with
  | .error e => { events := [], result := .error e }
  | .ok _ =>
    let done := startIpcClientLoop ServiceType ipcNewClient consulNewClient.1 serviceNames 0 this1
    { events := done.2, result := .ok done.1 }

/-- The method `StartIpcServer`.  `ipcInitServer` gives the server, the port and
the error returned by `ipc.InitServer`. -/
def StartIpcServer (ServiceType : ServiceTypeConsts)
    (ipcInitServer : Ptr × String × Option String)
    (consulNewServive : String → String → Int → String → Option String)
    (this : Service) : Outcome Service :=
  let ipcServer := ipcInitServer.1
  let port := ipcInitServer.2.1
  match CheckError ipcInitServer.2.2 with
  | .error e => { events := [], result := .error e }
  | .ok _ =>
    let this1 : Service := { this with ipcServer := ipcServer }
    let registered := registerService consulNewServive this1 ServiceType.IPC port
    { events := .INFO "ipc server start..." [port] :: registered.events,
      result := registered.result }

/-- The loop of `StartRpcClient`.  `rpcNewClient k consulClient serviceName` is the
handle returned by the call of `rpc.NewClient` in iteration `k`. -/
def startRpcClientLoop (ServiceType : ServiceTypeConsts)
    (rpcNewClient : Nat → Ptr → String → Ptr) (consulClient : Ptr) :
    List String → Nat → Service → Service × List Event
  | [], _, this => (this, [])
  | serviceName :: rest, k, this =>
    let serviceName := packageServiceName ServiceType.RPC serviceName
    let this1 : Service :=
      { this with
        rpcClients := this.rpcClients.set serviceName (rpcNewClient k consulClient serviceName) }
    let later := startRpcClientLoop ServiceType rpcNewClient consulClient rest (k + 1) this1
    (later.1, .INFO "rpc client start..." [serviceName] :: later.2)

/-- The method `StartRpcClient`. -/
def StartRpcClient (ServiceType : ServiceTypeConsts) (consulNewClient : Ptr × Option String)
    (rpcNewClient : Nat → Ptr → String → Ptr) (this : Service) (serviceNames : List String) :
    Outcome Service :=
  let this1 : Service := { this with rpcClients := GoMap.empty }
  match CheckError consulNewClient.2 with
  | .error e => { events := [], result := .error e }
  | .ok _ =>
    let done := startRpcClientLoop ServiceType rpcNewClient consulNewClient.1 serviceNames 0 this1
    { events := done.2, result := .ok done.1 }

/-- The method `Port`: the zero value `""` for a role type without a port. -/
def Port (this : Service) (serviceType : String) : String :=
  match this.ports serviceType with
  | some port => port
  | none => ""

/-- The method `GetIpcClient`: nil for a key without a handle. -/
def GetIpcClient (ServiceType : ServiceTypeConsts) (this : Service) (serviceName : String) :
    Ptr :=
  let serviceName := packageServiceName ServiceType.IPC serviceName
  match this.ipcClients serviceName with
  | some client => client
  | none => none

/-- The method `GetRpcClient`: nil for a key without a handle. -/
def GetRpcClient (ServiceType : ServiceTypeConsts) (this : Service) (serviceName : String) :
    Ptr :=
  let serviceName := packageServiceName ServiceType.RPC serviceName
  match this.rpcClients serviceName with
  | some client => client
  | none => none

/-- The method `GetMysqlClient`: nil for an alias without a client. -/
def GetMysqlClient (this : Service) (dbAliasName : String) : Ptr :=
  match this.dbClients dbAliasName with
  | some client => client
  | none => none

/-- The method `GetIpcServer`. -/
def GetIpcServer (this : Service) : Ptr :=
  this.ipcServer

/-! ## Auxiliary definitions -/

/-- The table a client loop builds: for each name in turn, the handle made in
that iteration is stored under the key of the name.  Both client loops write
their table this way. -/
def clientLoopTable (key : String → String) (make : Nat → String → Ptr) :
    List String → Nat → GoMap String Ptr → GoMap String Ptr
  | [], _, m => m
  | serviceName :: rest, k, m =>
    clientLoopTable key make rest (k + 1) (m.set (key serviceName) (make k (key serviceName)))

/-- Two message types used in the examples. -/
def typeA : GoType := .named "UserLoginC2S"

/-- The second message type of the examples. -/
def typeB : GoType := .named "UserLoginS2C"

/-- Every pointer type implements `proto.Message` in the examples. -/
def allMessages : GoType → Bool := fun _ => true

/-- The tables after `SetMsg(1, A{})` and `SetMsg(2, A{})`. -/
def sameTypeTwice : Protos :=
  { MsgObjectMap := (GoMap.empty.set 1 (some typeA)).set 2 (some typeA),
    MsgIDMap := (GoMap.empty.set (some (.ptr typeA)) 1).set (some (.ptr typeA)) 2,
    errLog := [] }

/-- The tables after `SetMsg(1, A{})` and `SetMsg(2, B{})`. -/
def twoTypes : Protos :=
  { MsgObjectMap := (GoMap.empty.set 1 (some typeA)).set 2 (some typeB),
    MsgIDMap := (GoMap.empty.set (some (.ptr typeA)) 1).set (some (.ptr typeB)) 2,
    errLog := [] }

/-- The tables after `SetMsg(0, A{})`. -/
def typeUnderZero : Protos :=
  { MsgObjectMap := GoMap.empty.set 0 (some typeA),
    MsgIDMap := GoMap.empty.set (some (.ptr typeA)) 0,
    errLog := [] }

/-- The tables after `SetMsg(1, A{})` and `SetMsg(1, B{})`. -/
def sameIdTwice : Protos :=
  { MsgObjectMap := (GoMap.empty.set 1 (some typeA)).set 1 (some typeB),
    MsgIDMap := (GoMap.empty.set (some (.ptr typeA)) 1).set (some (.ptr typeB)) 1,
    errLog := [] }

/-- The service of `servives/login/main.go` as `NewService` leaves it, for the
local address 10.0.0.1, the environment `dev` and the instance id 1. -/
def loginService : Service :=
  { env := "dev", name := "Login", id := 1, ip := "10.0.0.1", ports := GoMap.empty,
    ipcServer := none, ipcClients := GoMap.empty, rpcClients := GoMap.empty,
    redisClients := GoMap.empty, dbClients := GoMap.empty, wsServer := none }

/-- The role types of the examples. -/
def exampleTypes : ServiceTypeConsts :=
  { HTTP := "HTTP", WS := "WS", IPC := "IPC", RPC := "RPC" }

/-- A discovery collaborator whose registration always succeeds. -/
def consulAccepts : String → String → Int → String → Option String :=
  fun _ _ _ _ => none

/-- The login service once its role `IPC` is registered with port 9001. -/
def loginServiceWithIpc : Service :=
  { loginService with ports := GoMap.empty.set "IPC" "9001" }

/-- A `consul.NewClient()` that succeeds with the client 7. -/
def consulClientReady : Ptr × Option String := (some 7, none)

/-- An `ipc.NewClient` that returns the object 100 + k in iteration k. -/
def ipcHandles : Nat → Ptr → String → Ptr := fun k _ _ => some (100 + k)

/-- An `rpc.NewClient` that returns the object 200 + k in iteration k. -/
def rpcHandles : Nat → Ptr → String → Ptr := fun k _ _ => some (200 + k)

/-- A `mysql.NewClient` that succeeds: the client 1 for the alias `default`, the
client 2 for every other alias. -/
def mysqlClients : String → ConfigMap → Ptr × Option String :=
  fun aliasName _ => (some (if aliasName = "default" then 1 else 2), none)

/-- The login service with the pool that `StartMysql` builds from the aliases
`a` and `b`, in this order, with `mysqlClients`. -/
def loginServiceWithMysql : Service :=
  { loginService with dbClients := (GoMap.empty.set "a" (some 1)).set "b" (some 2) }

/-- The login service after a first `StartIpcServer` that got the server 1 and
the port 9001. -/
def loginServiceIpcStarted : Service :=
  { loginService with ipcServer := some 1, ports := GoMap.empty.set "IPC" "9001" }

/-- The login service after a second `StartIpcServer` that got the server 2 and
the port 9002. -/
def loginServiceIpcStartedAgain : Service :=
  { loginService with ipcServer := some 2, ports := GoMap.empty.set "IPC" "9001" }

/-! ## The message registry: auxiliary facts -/

theorem SetMsg_val (p : Protos) (msgID : MsgID) (t : GoType) (x : Nat) :
    SetMsg p msgID (.val t x) =
      .ok { MsgObjectMap := p.MsgObjectMap.set msgID (some t),
            MsgIDMap := p.MsgIDMap.set (some (.ptr t)) msgID,
            errLog := p.errLog } := rfl

theorem SetMsg_ok_iff (p q : Protos) (msgID : MsgID) (data : Iface) :
    SetMsg p msgID data = .ok q ↔
      ∃ t x, data = .val t x ∧
        q = { MsgObjectMap := p.MsgObjectMap.set msgID (some t),
              MsgIDMap := p.MsgIDMap.set (some (.ptr t)) msgID,
              errLog := p.errLog } := by
  cases data with
  | nil => simp [SetMsg, reflectTypeOf, reflectNew]
  | val t x =>
    rw [SetMsg_val]
    constructor
    · intro h
      exact ⟨t, x, rfl, (Except.ok.inj h).symm⟩
    · rintro ⟨t1, x1, h1, h2⟩
      cases h1
      rw [h2]

theorem runSetMsg_cons_ok (p r : Protos) (c : MsgID × Iface) (rest : List (MsgID × Iface)) :
    runSetMsg p (c :: rest) = .ok r ↔
      ∃ q, SetMsg p c.1 c.2 = .ok q ∧ runSetMsg q rest = .ok r := by
  have hstep : runSetMsg p (c :: rest) =
      (match SetMsg p c.1 c.2 with
       | .error e => .error e
       | .ok p1 => runSetMsg p1 rest) := rfl
  rw [hstep]
  cases h : SetMsg p c.1 c.2 with
  | error e => simp
  | ok q => simp

theorem runSetMsg_append_ok (pre post : List (MsgID × Iface)) (p r : Protos) :
    runSetMsg p (pre ++ post) = .ok r ↔
      ∃ q, runSetMsg p pre = .ok q ∧ runSetMsg q post = .ok r := by
  induction pre generalizing p with
  | nil => simp [runSetMsg]
  | cons c rest ih =>
    rw [List.cons_append, runSetMsg_cons_ok]
    constructor
    · rintro ⟨q, hq, hr⟩
      obtain ⟨q1, h1, h2⟩ := (ih q).mp hr
      exact ⟨q1, (runSetMsg_cons_ok p q1 c rest).mpr ⟨q, hq, h1⟩, h2⟩
    · rintro ⟨q1, h1, h2⟩
      obtain ⟨q, hq, h3⟩ := (runSetMsg_cons_ok p q1 c rest).mp h1
      exact ⟨q, hq, (ih q).mpr ⟨q1, h3, h2⟩⟩

/-- A pair of entries that agree survives every later call that either repeats
the pair or touches neither its identifier nor its type. -/
theorem runSetMsg_keeps (msgID : MsgID) (T : GoType) (calls : List (MsgID × Iface)) :
    ∀ p r : Protos, runSetMsg p calls = .ok r →
      p.MsgObjectMap msgID = some (some T) →
      p.MsgIDMap (some (.ptr T)) = some msgID →
      (∀ c ∈ calls, (c.1 = msgID ↔ reflectTypeOf c.2 = some T)) →
      r.MsgObjectMap msgID = some (some T) ∧ r.MsgIDMap (some (.ptr T)) = some msgID := by
  induction calls with
  | nil =>
    intro p r hrun ho hi _
    simp only [runSetMsg, Except.ok.injEq] at hrun
    subst hrun
    exact ⟨ho, hi⟩
  | cons c rest ih =>
    intro p r hrun ho hi hc
    obtain ⟨q, hq, hr⟩ := (runSetMsg_cons_ok p r c rest).mp hrun
    obtain ⟨t, x, hd, hq2⟩ := (SetMsg_ok_iff p q c.1 c.2).mp hq
    have hthis := hc c (List.mem_cons_self c rest)
    rw [hd] at hthis
    simp only [reflectTypeOf, Option.some.injEq] at hthis
    apply ih q r hr
    · subst hq2
      show (if msgID = c.1 then some (some t) else p.MsgObjectMap msgID) = some (some T)
      by_cases h : msgID = c.1
      · rw [if_pos h, hthis.mp h.symm]
      · rw [if_neg h, ho]
    · subst hq2
      show (if some (GoType.ptr T) = some (GoType.ptr t) then some c.1
            else p.MsgIDMap (some (.ptr T))) = some msgID
      by_cases h : t = T
      · subst h
        rw [if_pos rfl, hthis.mpr rfl]
      · have hne : ¬ (some (GoType.ptr T) = some (GoType.ptr t)) := by
          intro he
          exact h (GoType.ptr.inj (Option.some.inj he)).symm
        rw [if_neg hne, hi]
    · intro c1 hc1
      exact hc c1 (List.mem_cons_of_mem c hc1)

/-- An entry of `MsgObjectMap` was there before the calls or was written by one
of them. -/
theorem runSetMsg_obj_origin (msgID : MsgID) (ty : ReflectType)
    (calls : List (MsgID × Iface)) :
    ∀ p r : Protos, runSetMsg p calls = .ok r → r.MsgObjectMap msgID = some ty →
      p.MsgObjectMap msgID = some ty ∨
        ∃ c ∈ calls, c.1 = msgID ∧ reflectTypeOf c.2 = ty := by
  induction calls with
  | nil =>
    intro p r hrun ho
    simp only [runSetMsg, Except.ok.injEq] at hrun
    subst hrun
    exact Or.inl ho
  | cons c rest ih =>
    intro p r hrun ho
    obtain ⟨q, hq, hr⟩ := (runSetMsg_cons_ok p r c rest).mp hrun
    obtain ⟨t, x, hd, hq2⟩ := (SetMsg_ok_iff p q c.1 c.2).mp hq
    rcases ih q r hr ho with h | ⟨c1, hc1, h1, h2⟩
    · subst hq2
      have h2 : (if msgID = c.1 then some (some t) else p.MsgObjectMap msgID) = some ty := h
      by_cases he : msgID = c.1
      · rw [if_pos he] at h2
        refine Or.inr ⟨c, List.mem_cons_self c rest, he.symm, ?_⟩
        rw [hd]
        exact Option.some.inj h2
      · rw [if_neg he] at h2
        exact Or.inl h2
    · exact Or.inr ⟨c1, List.mem_cons_of_mem c hc1, h1, h2⟩

/-- An entry of `MsgIDMap` was there before the calls or was written by one of
them. -/
theorem runSetMsg_id_origin (key : ReflectType) (msgID : MsgID)
    (calls : List (MsgID × Iface)) :
    ∀ p r : Protos, runSetMsg p calls = .ok r → r.MsgIDMap key = some msgID →
      p.MsgIDMap key = some msgID ∨
        ∃ c ∈ calls, c.1 = msgID ∧ ∃ t, reflectTypeOf c.2 = some t ∧ key = some (.ptr t) := by
  induction calls with
  | nil =>
    intro p r hrun ho
    simp only [runSetMsg, Except.ok.injEq] at hrun
    subst hrun
    exact Or.inl ho
  | cons c rest ih =>
    intro p r hrun ho
    obtain ⟨q, hq, hr⟩ := (runSetMsg_cons_ok p r c rest).mp hrun
    obtain ⟨t, x, hd, hq2⟩ := (SetMsg_ok_iff p q c.1 c.2).mp hq
    rcases ih q r hr ho with h | ⟨c1, hc1, h1, h2⟩
    · subst hq2
      have h2 : (if key = some (GoType.ptr t) then some c.1 else p.MsgIDMap key)
          = some msgID := h
      by_cases he : key = some (GoType.ptr t)
      · rw [if_pos he] at h2
        refine Or.inr ⟨c, List.mem_cons_self c rest, Option.some.inj h2, t, ?_, he⟩
        rw [hd]
        rfl
      · rw [if_neg he] at h2
        exact Or.inl h2
    · exact Or.inr ⟨c1, List.mem_cons_of_mem c hc1, h1, h2⟩

/-- The tables right after a call hold the pair that the call registered. -/
theorem SetMsg_registers (p q : Protos) (msgID : MsgID) (data : Iface) (T : GoType)
    (hset : SetMsg p msgID data = .ok q) (hty : reflectTypeOf data = some T) :
    q.MsgObjectMap msgID = some (some T) ∧ q.MsgIDMap (some (.ptr T)) = some msgID := by
  obtain ⟨t, x, hd, hq⟩ := (SetMsg_ok_iff p q msgID data).mp hset
  rw [hd] at hty
  have ht : t = T := Option.some.inj hty
  subst ht
  subst hq
  constructor
  · show (if msgID = msgID then some (some t) else p.MsgObjectMap msgID) = some (some t)
    rw [if_pos rfl]
  · show (if some (GoType.ptr t) = some (GoType.ptr t) then some msgID
          else p.MsgIDMap (some (.ptr t))) = some msgID
    rw [if_pos rfl]

/-- A call whose pair no later call disturbs is visible in both tables at the
end of the run. -/
theorem runSetMsg_registered (pre post : List (MsgID × Iface)) (c : MsgID × Iface)
    (T : GoType) (p r : Protos)
    (hrun : runSetMsg p (pre ++ c :: post) = .ok r)
    (hty : reflectTypeOf c.2 = some T)
    (hlater : ∀ d ∈ post, (d.1 = c.1 ↔ reflectTypeOf d.2 = some T)) :
    r.MsgObjectMap c.1 = some (some T) ∧ r.MsgIDMap (some (.ptr T)) = some c.1 := by
  obtain ⟨q, _, hq⟩ := (runSetMsg_append_ok pre (c :: post) p r).mp hrun
  obtain ⟨q1, hset, hpost⟩ := (runSetMsg_cons_ok q r c post).mp hq
  obtain ⟨ho, hi⟩ := SetMsg_registers q q1 c.1 c.2 T hset hty
  exact runSetMsg_keeps c.1 T post q1 r hpost ho hi hlater

theorem GoMap_empty_apply {K V : Type} (k : K) : (GoMap.empty : GoMap K V) k = none := rfl

/-- Without a call for an identifier, `MsgObjectMap` has no entry for it. -/
theorem runSetMsg_obj_absent (calls : List (MsgID × Iface)) (r : Protos) (msgID : MsgID)
    (hrun : runSetMsg Protos.init calls = .ok r) (hnever : ∀ c ∈ calls, c.1 ≠ msgID) :
    r.MsgObjectMap msgID = none := by
  cases h : r.MsgObjectMap msgID with
  | none => rfl
  | some ty =>
    rcases runSetMsg_obj_origin msgID ty calls Protos.init r hrun h with h0 | ⟨c, hc, h1, _⟩
    · exact absurd h0 (by simp [Protos.init, GoMap_empty_apply])
    · exact absurd h1 (hnever c hc)

/-- Without a call for a type, `MsgIDMap` has no entry for the pointer to it. -/
theorem runSetMsg_id_absent (calls : List (MsgID × Iface)) (r : Protos) (key : ReflectType)
    (hrun : runSetMsg Protos.init calls = .ok r)
    (hnever : ∀ c ∈ calls, ∀ t, reflectTypeOf c.2 = some t → key ≠ some (.ptr t)) :
    r.MsgIDMap key = none := by
  cases h : r.MsgIDMap key with
  | none => rfl
  | some msgID =>
    rcases runSetMsg_id_origin key msgID calls Protos.init r hrun h with
      h0 | ⟨c, hc, _, t, h2, h3⟩
    · exact absurd h0 (by simp [Protos.init, GoMap_empty_apply])
    · exact absurd h3 (hnever c hc t h2)

/-! ## The message registry: the properties -/

theorem typeA_ne_typeB : typeA ≠ typeB := by decide

/-- C1, as amended: after a run of `SetMsg` calls from the empty registry, take a
call `SetMsg(id, v)` with `v` of type `T`, a pointer to `T` implementing
`proto.Message`, such that every later call either repeats the pair or uses
neither `id` nor `T`.  Then `GetMsgObject(id)` returns a pointer to a new `T`,
leaves the state as it is, and `GetMsgID` of that instance is `id`. -/
theorem GetMsgObject_GetMsgID_roundtrip (implementsMessage : GoType → Bool)
    (pre post : List (MsgID × Iface)) (msgID : MsgID) (T : GoType) (x : Nat) (r : Protos)
    (hrun : runSetMsg Protos.init (pre ++ (msgID, Iface.val T x) :: post) = .ok r)
    (hmsg : implementsMessage (.ptr T) = true)
    (hlater : ∀ d ∈ post, (d.1 = msgID ↔ reflectTypeOf d.2 = some T)) :
    GetMsgObject implementsMessage r msgID = .ok (.val (.ptr T) 0, r) ∧
      GetMsgID r (.val (.ptr T) 0) = (msgID, r) := by
  obtain ⟨ho, hi⟩ :=
    runSetMsg_registered pre post (msgID, Iface.val T x) T Protos.init r hrun rfl hlater
  simp only at ho hi
  constructor
  · simp [GetMsgObject, ho, reflectNew, assertMessage, hmsg]
  · simp [GetMsgID, reflectTypeOf, hi]

/-- C1, an instance: `SetMsg(1, A{})` then `SetMsg(2, B{})`, looked up at 1. -/
theorem GetMsgObject_GetMsgID_roundtrip_witness :
    runSetMsg Protos.init [(1, Iface.val typeA 7), (2, Iface.val typeB 0)] = .ok twoTypes ∧
      GetMsgObject allMessages twoTypes 1 = .ok (.val (.ptr typeA) 0, twoTypes) ∧
      GetMsgID twoTypes (.val (.ptr typeA) 0) = (1, twoTypes) :=
  ⟨rfl,
   GetMsgObject_GetMsgID_roundtrip allMessages [] [(2, Iface.val typeB 0)] 1 typeA 7 twoTypes
     rfl rfl (by
       intro d hd
       rw [List.mem_singleton] at hd
       subst hd
       decide)⟩

/-- C1 fails as stated: after `SetMsg(1, A{})` and `SetMsg(2, A{})` the identifier 1
is registered with type `A`, `GetMsgObject(1)` returns a pointer to `A`, and
`GetMsgID` of that instance is 2. -/
theorem roundtrip_fails_type_under_two_ids :
    runSetMsg Protos.init [(1, Iface.val typeA 0), (2, Iface.val typeA 0)] = .ok sameTypeTwice ∧
      GetMsgObject allMessages sameTypeTwice 1 = .ok (.val (.ptr typeA) 0, sameTypeTwice) ∧
      (GetMsgID sameTypeTwice (.val (.ptr typeA) 0)).1 = 2 :=
  ⟨rfl, rfl, rfl⟩

/-- C2, as amended: after a run of `SetMsg` calls from the empty registry in which
any two calls have the same identifier exactly when their data have the same
type, `MsgObjectMap[id] = T` if and only if `MsgIDMap[pointer to T] = id`, for
every identifier and every type. -/
theorem tables_consistent_of_one_to_one (calls : List (MsgID × Iface)) (r : Protos)
    (hrun : runSetMsg Protos.init calls = .ok r)
    (hpairs : ∀ c ∈ calls, ∀ d ∈ calls, (c.1 = d.1 ↔ reflectTypeOf c.2 = reflectTypeOf d.2))
    (msgID : MsgID) (T : GoType) :
    r.MsgObjectMap msgID = some (some T) ↔ r.MsgIDMap (some (.ptr T)) = some msgID := by
  have key : ∀ c ∈ calls, c.1 = msgID → reflectTypeOf c.2 = some T →
      r.MsgObjectMap msgID = some (some T) ∧ r.MsgIDMap (some (.ptr T)) = some msgID := by
    intro c hc hid hty
    obtain ⟨pre, post, hsplit⟩ := List.append_of_mem hc
    have hrun2 : runSetMsg Protos.init (pre ++ c :: post) = .ok r := by
      rw [← hsplit]
      exact hrun
    have hlater : ∀ d ∈ post, (d.1 = c.1 ↔ reflectTypeOf d.2 = some T) := by
      intro d hd
      have hdmem : d ∈ calls := by
        rw [hsplit]
        exact List.mem_append_right pre (List.mem_cons_of_mem c hd)
      rw [← hty]
      exact hpairs d hdmem c hc
    have h := runSetMsg_registered pre post c T Protos.init r hrun2 hty hlater
    rw [hid] at h
    exact h
  constructor
  · intro ho
    rcases runSetMsg_obj_origin msgID (some T) calls Protos.init r hrun ho with
      h0 | ⟨c, hc, h1, h2⟩
    · exact absurd h0 (by simp [Protos.init, GoMap_empty_apply])
    · exact (key c hc h1 h2).2
  · intro hi
    rcases runSetMsg_id_origin (some (.ptr T)) msgID calls Protos.init r hrun hi with
      h0 | ⟨c, hc, h1, t, h2, h3⟩
    · exact absurd h0 (by simp [Protos.init, GoMap_empty_apply])
    · have ht : T = t := GoType.ptr.inj (Option.some.inj h3)
      rw [← ht] at h2
      exact (key c hc h1 h2).1

/-- C2, an instance: `SetMsg(1, A{})` then `SetMsg(2, B{})`, read at 2 and `B`. -/
theorem tables_consistent_of_one_to_one_witness :
    runSetMsg Protos.init [(1, Iface.val typeA 0), (2, Iface.val typeB 0)] = .ok twoTypes ∧
      (twoTypes.MsgObjectMap 2 = some (some typeB) ↔
        twoTypes.MsgIDMap (some (.ptr typeB)) = some 2) :=
  ⟨rfl,
   tables_consistent_of_one_to_one [(1, Iface.val typeA 0), (2, Iface.val typeB 0)] twoTypes
     rfl (by decide) 2 typeB⟩

/-- C2 fails as stated: after `SetMsg(1, A{})` and `SetMsg(2, A{})`,
`MsgObjectMap[1]` is `A` while `MsgIDMap[pointer to A]` is 2; and after
`SetMsg(1, A{})` and `SetMsg(1, B{})`, `MsgIDMap[pointer to A]` is 1 while
`MsgObjectMap[1]` is `B`. -/
theorem tables_inconsistent_after_reuse :
    (runSetMsg Protos.init [(1, Iface.val typeA 0), (2, Iface.val typeA 0)] = .ok sameTypeTwice ∧
      sameTypeTwice.MsgObjectMap 1 = some (some typeA) ∧
      sameTypeTwice.MsgIDMap (some (.ptr typeA)) = some 2) ∧
    (runSetMsg Protos.init [(1, Iface.val typeA 0), (1, Iface.val typeB 0)] = .ok sameIdTwice ∧
      sameIdTwice.MsgIDMap (some (.ptr typeA)) = some 1 ∧
      sameIdTwice.MsgObjectMap 1 = some (some typeB)) :=
  ⟨⟨rfl, rfl, rfl⟩, ⟨rfl, rfl, rfl⟩⟩

/-- C3: after a run of `SetMsg` calls from the empty registry, `GetMsgObject(id)` for
an identifier that none of the calls used returns nil without a panic; the state
it leaves differs only by the logged line, so both tables are unchanged. -/
theorem GetMsgObject_unregistered (implementsMessage : GoType → Bool)
    (calls : List (MsgID × Iface)) (r : Protos) (msgID : MsgID)
    (hrun : runSetMsg Protos.init calls = .ok r)
    (hnever : ∀ c ∈ calls, c.1 ≠ msgID) :
    ∃ r1, GetMsgObject implementsMessage r msgID = .ok (Iface.nil, r1) ∧
      r1.MsgObjectMap = r.MsgObjectMap ∧ r1.MsgIDMap = r.MsgIDMap ∧
      r1.errLog = r.errLog ++ [ProtosLog.noMsgID msgID] := by
  have ho := runSetMsg_obj_absent calls r msgID hrun hnever
  refine ⟨{ r with errLog := r.errLog ++ [ProtosLog.noMsgID msgID] }, ?_, rfl, rfl, rfl⟩
  simp [GetMsgObject, ho]

/-- C3, an instance: `SetMsg(1, A{})` then `SetMsg(2, B{})`, looked up at 3. -/
theorem GetMsgObject_unregistered_witness :
    runSetMsg Protos.init [(1, Iface.val typeA 0), (2, Iface.val typeB 0)] = .ok twoTypes ∧
      ∃ r1, GetMsgObject allMessages twoTypes 3 = .ok (Iface.nil, r1) ∧
        r1.MsgObjectMap = twoTypes.MsgObjectMap ∧ r1.MsgIDMap = twoTypes.MsgIDMap ∧
        r1.errLog = twoTypes.errLog ++ [ProtosLog.noMsgID 3] :=
  ⟨rfl,
   GetMsgObject_unregistered allMessages [(1, Iface.val typeA 0), (2, Iface.val typeB 0)]
     twoTypes 3 rfl (by decide)⟩

/-- C4, as amended: after a run of `SetMsg` calls from the empty registry, `GetMsgID`
of a message whose type no call registered returns 0 and changes the state only
by the logged line.  That result differs from the result for every message whose
type is registered under an identifier other than 0. -/
theorem GetMsgID_unregistered (calls : List (MsgID × Iface)) (r : Protos) (msg : Iface)
    (hrun : runSetMsg Protos.init calls = .ok r)
    (hnever : ∀ c ∈ calls, ∀ t, reflectTypeOf c.2 = some t →
      reflectTypeOf msg ≠ some (.ptr t)) :
    GetMsgID r msg =
        (0, { r with errLog := r.errLog ++ [ProtosLog.noMsgType (reflectTypeOf msg)] }) ∧
      ∀ (other : Iface) (msgID : MsgID),
        r.MsgIDMap (reflectTypeOf other) = some msgID → msgID ≠ 0 →
        GetMsgID r other = (msgID, r) ∧ (GetMsgID r other).1 ≠ (GetMsgID r msg).1 := by
  have hi := runSetMsg_id_absent calls r (reflectTypeOf msg) hrun hnever
  have h0 : GetMsgID r msg =
      (0, { r with errLog := r.errLog ++ [ProtosLog.noMsgType (reflectTypeOf msg)] }) := by
    simp [GetMsgID, hi]
  refine ⟨h0, ?_⟩
  intro other msgID hreg hne
  have h1 : GetMsgID r other = (msgID, r) := by
    simp [GetMsgID, hreg]
  refine ⟨h1, ?_⟩
  rw [h0, h1]
  exact hne

/-- C4, an instance: `SetMsg(1, A{})` then `SetMsg(2, B{})`; a value of the
unregistered non-pointer type `A` against a pointer to `B`. -/
theorem GetMsgID_unregistered_witness :
    runSetMsg Protos.init [(1, Iface.val typeA 0), (2, Iface.val typeB 0)] = .ok twoTypes ∧
      (GetMsgID twoTypes (.val typeA 5)).1 = 0 ∧
      (GetMsgID twoTypes (.val (.ptr typeB) 0)).1 ≠ (GetMsgID twoTypes (.val typeA 5)).1 :=
  have h := GetMsgID_unregistered [(1, Iface.val typeA 0), (2, Iface.val typeB 0)] twoTypes
    (.val typeA 5) rfl (by decide)
  ⟨rfl, congrArg Prod.fst h.1, (h.2 (.val (.ptr typeB) 0) 2 rfl (by decide)).2⟩

/-- C4 fails as stated: after `SetMsg(0, A{})` the type of a pointer to `A` is
registered and that of a pointer to `B` is not, yet `GetMsgID` returns 0 for
both. -/
theorem GetMsgID_zero_is_ambiguous :
    runSetMsg Protos.init [(0, Iface.val typeA 0)] = .ok typeUnderZero ∧
      typeUnderZero.MsgIDMap (some (.ptr typeA)) = some 0 ∧
      typeUnderZero.MsgIDMap (some (.ptr typeB)) = none ∧
      (GetMsgID typeUnderZero (.val (.ptr typeA) 0)).1 = 0 ∧
      (GetMsgID typeUnderZero (.val (.ptr typeB) 0)).1 = 0 :=
  ⟨rfl, rfl, rfl, rfl, rfl⟩

/-- C10, as amended: for every state, identifier and two distinct types `A` and `B`
with pointers to `B` implementing `proto.Message`, after `SetMsg(id, a)` and
`SetMsg(id, b)` the call `GetMsgObject(id)` returns a pointer to a new `B`, and
`GetMsgID` returns `id` for every pointer to `B` and also, still, for every
pointer to `A`: the earlier entry of `MsgIDMap` stays. -/
theorem SetMsg_twice_same_id (implementsMessage : GoType → Bool) (p : Protos)
    (msgID : MsgID) (A B : GoType) (x y : Nat)
    (hAB : A ≠ B) (hmsg : implementsMessage (.ptr B) = true) :
    ∃ p1 p2, SetMsg p msgID (.val A x) = .ok p1 ∧ SetMsg p1 msgID (.val B y) = .ok p2 ∧
      GetMsgObject implementsMessage p2 msgID = .ok (.val (.ptr B) 0, p2) ∧
      (∀ z, GetMsgID p2 (.val (.ptr B) z) = (msgID, p2)) ∧
      (∀ z, GetMsgID p2 (.val (.ptr A) z) = (msgID, p2)) := by
  refine ⟨_, _, SetMsg_val p msgID A x, SetMsg_val _ msgID B y, ?_, ?_, ?_⟩
  · simp [GetMsgObject, GoMap.set, reflectNew, assertMessage, hmsg]
  · intro z
    simp [GetMsgID, GoMap.set, reflectTypeOf]
  · intro z
    simp [GetMsgID, GoMap.set, reflectTypeOf, hAB]

/-- C10, an instance: identifier 1 with the types `A` and `B` from the empty
registry. -/
theorem SetMsg_twice_same_id_witness :
    typeA ≠ typeB ∧
      ∃ p1 p2, SetMsg Protos.init 1 (.val typeA 0) = .ok p1 ∧
        SetMsg p1 1 (.val typeB 0) = .ok p2 ∧
        GetMsgObject allMessages p2 1 = .ok (.val (.ptr typeB) 0, p2) ∧
        (∀ z, GetMsgID p2 (.val (.ptr typeB) z) = (1, p2)) ∧
        (∀ z, GetMsgID p2 (.val (.ptr typeA) z) = (1, p2)) :=
  ⟨typeA_ne_typeB,
   SetMsg_twice_same_id allMessages Protos.init 1 typeA typeB 0 0 typeA_ne_typeB rfl⟩

/-- C10 fails as stated: after `SetMsg(1, A{})` and `SetMsg(1, B{})`, `GetMsgID` of a
pointer to `A` still returns 1. -/
theorem GetMsgID_stale_after_overwrite :
    runSetMsg Protos.init [(1, Iface.val typeA 0), (1, Iface.val typeB 0)] = .ok sameIdTwice ∧
      GetMsgObject allMessages sameIdTwice 1 = .ok (.val (.ptr typeB) 0, sameIdTwice) ∧
      (GetMsgID sameIdTwice (.val (.ptr typeB) 0)).1 = 1 ∧
      (GetMsgID sameIdTwice (.val (.ptr typeA) 0)).1 = 1 :=
  ⟨rfl, rfl, rfl, rfl⟩

/-! ## The service composition core: the properties -/

theorem NewService_login :
    NewService "10.0.0.1" none "dev" 1 "Login" = .ok loginService := rfl

/-- C5: when the role type is already in the ports table, `registerService` only
logs the conflict: the service is returned as it was, so the ports table and
`Port` are unchanged, and no discovery registration is issued.  Hence a
successful registration of a role type followed by a second one for the same
role type issues exactly one discovery registration, that of the first. -/
theorem registerService_duplicate
    (consulNewServive : String → String → Int → String → Option String)
    (this : Service) (serviceType servicePort bound : String)
    (hbound : this.ports serviceType = some bound) :
    (registerService consulNewServive this serviceType servicePort =
        { events := [.ERR "该类型的Service已经在本进程内启用" [serviceType]],
          result := .ok this } ∧
      discoveryRegistrations
        (registerService consulNewServive this serviceType servicePort).events = []) ∧
    ∀ (consulFirst : String → String → Int → String → Option String) (before : Service)
      (firstPort : String),
      before.ports serviceType = none →
      (registerService consulFirst before serviceType firstPort).result = .ok this →
      discoveryRegistrations
          ((registerService consulFirst before serviceType firstPort).events ++
            (registerService consulNewServive this serviceType servicePort).events) =
        [{ ip := before.ip, name := packageServiceName serviceType before.name,
           id := before.id, port := firstPort }] := by
  have hdup : registerService consulNewServive this serviceType servicePort =
      { events := [.ERR "该类型的Service已经在本进程内启用" [serviceType]],
        result := .ok this } := by
    simp [registerService, hbound]
  refine ⟨⟨hdup, ?_⟩, ?_⟩
  · rw [hdup]
    rfl
  · intro consulFirst before firstPort habsent hfirst
    rw [hdup]
    revert hfirst
    simp only [registerService, habsent]
    cases consulFirst before.ip (packageServiceName serviceType before.name) before.id
        firstPort with
    | none =>
      intro _
      rfl
    | some err =>
      intro hfirst
      simp [CheckError] at hfirst

/-- C5, an instance: the login service registers `IPC` with port 9001, then
again with port 9002. -/
theorem registerService_duplicate_witness :
    loginServiceWithIpc.ports "IPC" = some "9001" ∧
      (registerService consulAccepts loginService "IPC" "9001").result
        = .ok loginServiceWithIpc ∧
      (registerService consulAccepts loginServiceWithIpc "IPC" "9002").result
        = .ok loginServiceWithIpc ∧
      discoveryRegistrations
          ((registerService consulAccepts loginService "IPC" "9001").events ++
            (registerService consulAccepts loginServiceWithIpc "IPC" "9002").events) =
        [{ ip := "10.0.0.1", name := "<IPC>Login", id := 1, port := "9001" }] :=
  have h := registerService_duplicate consulAccepts loginServiceWithIpc "IPC" "9002" "9001" rfl
  ⟨rfl, rfl, congrArg Outcome.result h.1.1, h.2 consulAccepts loginService "9001" rfl rfl⟩

/-- C6: when the role type is not in the ports table and `consul.NewServive`
returns no error, `registerService` issues exactly one discovery registration,
with the record (ip, `<` role type `>` name, id, port); afterwards `Port` of the
role type is the port, and the ports table is as before at every other role
type. -/
theorem registerService_fresh
    (consulNewServive : String → String → Int → String → Option String)
    (this : Service) (serviceType servicePort : String)
    (habsent : this.ports serviceType = none)
    (hconsul : consulNewServive this.ip (packageServiceName serviceType this.name) this.id
      servicePort = none) :
    ∃ after, (registerService consulNewServive this serviceType servicePort).result
        = .ok after ∧
      discoveryRegistrations
          (registerService consulNewServive this serviceType servicePort).events =
        [{ ip := this.ip, name := "<" ++ serviceType ++ ">" ++ this.name, id := this.id,
           port := servicePort }] ∧
      Port after serviceType = servicePort ∧
      ∀ other, other ≠ serviceType →
        after.ports other = this.ports other ∧ Port after other = Port this other := by
  have hout : registerService consulNewServive this serviceType servicePort =
      { events :=
          [.consulNewServive this.ip (packageServiceName serviceType this.name) this.id
             servicePort,
           .INFO "join consul service..."
             [packageServiceName serviceType this.name, servicePort]],
        result := .ok { this with ports := this.ports.set serviceType servicePort } } := by
    simp [registerService, habsent, hconsul, CheckError]
  rw [hout]
  refine ⟨{ this with ports := this.ports.set serviceType servicePort }, rfl, rfl, ?_, ?_⟩
  · simp [Port, GoMap.set]
  · intro other hne
    simp [Port, GoMap.set, hne]

/-- C6, an instance: the login service registers `IPC` with port 9001. -/
theorem registerService_fresh_witness :
    loginService.ports "IPC" = none ∧
      ∃ after, (registerService consulAccepts loginService "IPC" "9001").result = .ok after ∧
        discoveryRegistrations
            (registerService consulAccepts loginService "IPC" "9001").events =
          [{ ip := "10.0.0.1", name := "<" ++ "IPC" ++ ">" ++ "Login", id := 1,
             port := "9001" }] ∧
        Port after "IPC" = "9001" ∧
        ∀ other, other ≠ "IPC" →
          after.ports other = loginService.ports other ∧
            Port after other = Port loginService other :=
  ⟨rfl, registerService_fresh consulAccepts loginService "IPC" "9001" rfl rfl⟩

/-! ### Client handles -/

theorem packageServiceName_injective (serviceType a b : String)
    (h : packageServiceName serviceType a = packageServiceName serviceType b) : a = b := by
  have hd := congrArg String.data h
  simp only [packageServiceName, String.data_append] at hd
  exact String.ext (List.append_cancel_left hd)

theorem startIpcClientLoop_table (ServiceType : ServiceTypeConsts)
    (ipcNewClient : Nat → Ptr → String → Ptr) (consulClient : Ptr) (names : List String) :
    ∀ (k : Nat) (this : Service),
      (startIpcClientLoop ServiceType ipcNewClient consulClient names k this).1.ipcClients =
        clientLoopTable (packageServiceName ServiceType.IPC)
          (fun i s => ipcNewClient i consulClient s) names k this.ipcClients := by
  induction names with
  | nil => intro k this; rfl
  | cons n rest ih =>
    intro k this
    simp only [startIpcClientLoop, clientLoopTable]
    rw [ih]

theorem startRpcClientLoop_table (ServiceType : ServiceTypeConsts)
    (rpcNewClient : Nat → Ptr → String → Ptr) (consulClient : Ptr) (names : List String) :
    ∀ (k : Nat) (this : Service),
      (startRpcClientLoop ServiceType rpcNewClient consulClient names k this).1.rpcClients =
        clientLoopTable (packageServiceName ServiceType.RPC)
          (fun i s => rpcNewClient i consulClient s) names k this.rpcClients := by
  induction names with
  | nil => intro k this; rfl
  | cons n rest ih =>
    intro k this
    simp only [startRpcClientLoop, clientLoopTable]
    rw [ih]

/-- What a client loop leaves under the key of a name: the old entry when the name
is not in the list, the handle made at its last occurrence when it is. -/
theorem clientLoopTable_lookup (key : String → String) (make : Nat → String → Ptr)
    (hkey : ∀ a b, key a = key b → a = b) (n : String) (names : List String) :
    ∀ (k : Nat) (m : GoMap String Ptr),
      (n ∉ names → clientLoopTable key make names k m (key n) = m (key n)) ∧
      (n ∈ names → ∃ i, names[i]? = some n ∧ (∀ j, i < j → names[j]? ≠ some n) ∧
        clientLoopTable key make names k m (key n) = some (make (k + i) (key n))) := by
  induction names with
  | nil =>
    intro k m
    exact ⟨fun _ => rfl, fun h => absurd h (List.not_mem_nil n)⟩
  | cons a rest ih =>
    intro k m
    have hstep : clientLoopTable key make (a :: rest) k m =
        clientLoopTable key make rest (k + 1) (m.set (key a) (make k (key a))) := rfl
    rw [hstep]
    obtain ⟨ihout, ihin⟩ := ih (k + 1) (m.set (key a) (make k (key a)))
    constructor
    · intro hn
      have hna : n ≠ a := fun e => hn (e ▸ List.mem_cons_self n rest)
      have hnr : n ∉ rest := fun e => hn (List.mem_cons_of_mem a e)
      rw [ihout hnr]
      have hk : key n ≠ key a := fun e => hna (hkey n a e)
      simp [GoMap.set, hk]
    · intro hn
      by_cases hr : n ∈ rest
      · obtain ⟨i, hi, hlast, hval⟩ := ihin hr
        refine ⟨i + 1, ?_, ?_, ?_⟩
        · rw [List.getElem?_cons_succ]
          exact hi
        · intro j hj
          cases j with
          | zero => omega
          | succ j1 =>
            rw [List.getElem?_cons_succ]
            exact hlast j1 (by omega)
        · rw [hval]
          have he : k + 1 + i = k + (i + 1) := by omega
          rw [he]
      · have hna : n = a := by
          rcases List.mem_cons.mp hn with h | h
          · exact h
          · exact absurd h hr
        refine ⟨0, ?_, ?_, ?_⟩
        · rw [hna]
          exact List.getElem?_cons_zero
        · intro j hj
          cases j with
          | zero => omega
          | succ j1 =>
            rw [List.getElem?_cons_succ]
            intro e
            exact hr (List.getElem?_mem e)
        · rw [ihout hr, hna]
          simp [GoMap.set]

/-- C8: after `StartIpcClient(names)` with `consul.NewClient()` succeeding,
`GetIpcClient(n)` is nil for every name `n` that is not among `names`, and for
every `n` among them it is the handle that `ipc.NewClient` returned for the key
`packageServiceName(IPC, n)` at the last occurrence of `n`.  The same holds for
`StartRpcClient` and `GetRpcClient` with `rpc.NewClient` and the role type `RPC`. -/
theorem client_lookup_by_composite_name (ServiceType : ServiceTypeConsts)
    (consulNewClient : Ptr × Option String)
    (ipcNewClient rpcNewClient : Nat → Ptr → String → Ptr)
    (this : Service) (names : List String)
    (hconsul : consulNewClient.2 = none) :
    (∃ after, (StartIpcClient ServiceType consulNewClient ipcNewClient this names).result
        = .ok after ∧
      ∀ n, (n ∉ names → GetIpcClient ServiceType after n = none) ∧
        (n ∈ names → ∃ i, names[i]? = some n ∧ (∀ j, i < j → names[j]? ≠ some n) ∧
          GetIpcClient ServiceType after n =
            ipcNewClient i consulNewClient.1 (packageServiceName ServiceType.IPC n))) ∧
    (∃ after, (StartRpcClient ServiceType consulNewClient rpcNewClient this names).result
        = .ok after ∧
      ∀ n, (n ∉ names → GetRpcClient ServiceType after n = none) ∧
        (n ∈ names → ∃ i, names[i]? = some n ∧ (∀ j, i < j → names[j]? ≠ some n) ∧
          GetRpcClient ServiceType after n =
            rpcNewClient i consulNewClient.1 (packageServiceName ServiceType.RPC n))) := by
  constructor
  · refine ⟨(startIpcClientLoop ServiceType ipcNewClient consulNewClient.1 names 0
      { this with ipcClients := GoMap.empty }).1, ?_, ?_⟩
    · simp [StartIpcClient, hconsul, CheckError]
    · intro n
      obtain ⟨hout, hin⟩ := clientLoopTable_lookup (packageServiceName ServiceType.IPC)
        (fun i s => ipcNewClient i consulNewClient.1 s)
        (packageServiceName_injective ServiceType.IPC) n names 0 GoMap.empty
      constructor
      · intro hn
        simp only [GetIpcClient]
        rw [startIpcClientLoop_table, hout hn]
        rfl
      · intro hn
        obtain ⟨i, hi, hlast, hval⟩ := hin hn
        refine ⟨i, hi, hlast, ?_⟩
        simp only [GetIpcClient]
        rw [startIpcClientLoop_table, hval, Nat.zero_add]
  · refine ⟨(startRpcClientLoop ServiceType rpcNewClient consulNewClient.1 names 0
      { this with rpcClients := GoMap.empty }).1, ?_, ?_⟩
    · simp [StartRpcClient, hconsul, CheckError]
    · intro n
      obtain ⟨hout, hin⟩ := clientLoopTable_lookup (packageServiceName ServiceType.RPC)
        (fun i s => rpcNewClient i consulNewClient.1 s)
        (packageServiceName_injective ServiceType.RPC) n names 0 GoMap.empty
      constructor
      · intro hn
        simp only [GetRpcClient]
        rw [startRpcClientLoop_table, hout hn]
        rfl
      · intro hn
        obtain ⟨i, hi, hlast, hval⟩ := hin hn
        refine ⟨i, hi, hlast, ?_⟩
        simp only [GetRpcClient]
        rw [startRpcClientLoop_table, hval, Nat.zero_add]

/-- C8, an instance: the login service starts clients for the peers `Log`, `Game`
and `Log` again. -/
theorem client_lookup_by_composite_name_witness :
    consulClientReady.2 = none ∧
    (∃ after, (StartIpcClient exampleTypes consulClientReady ipcHandles loginService
          ["Log", "Game", "Log"]).result = .ok after ∧
      ∀ n, (n ∉ ["Log", "Game", "Log"] → GetIpcClient exampleTypes after n = none) ∧
        (n ∈ ["Log", "Game", "Log"] → ∃ i, ["Log", "Game", "Log"][i]? = some n ∧
          (∀ j, i < j → ["Log", "Game", "Log"][j]? ≠ some n) ∧
          GetIpcClient exampleTypes after n =
            ipcHandles i consulClientReady.1 (packageServiceName exampleTypes.IPC n))) ∧
    (∃ after, (StartRpcClient exampleTypes consulClientReady rpcHandles loginService
          ["Log", "Game", "Log"]).result = .ok after ∧
      ∀ n, (n ∉ ["Log", "Game", "Log"] → GetRpcClient exampleTypes after n = none) ∧
        (n ∈ ["Log", "Game", "Log"] → ∃ i, ["Log", "Game", "Log"][i]? = some n ∧
          (∀ j, i < j → ["Log", "Game", "Log"][j]? ≠ some n) ∧
          GetRpcClient exampleTypes after n =
            rpcHandles i consulClientReady.1 (packageServiceName exampleTypes.RPC n))) :=
  ⟨rfl,
   client_lookup_by_composite_name exampleTypes consulClientReady ipcHandles rpcHandles
     loginService ["Log", "Game", "Log"] rfl⟩

/-! ### The relational pool -/

/-- C7, as amended: `StartMysql` over the aliases `a` and `b`, in either order and
with every `mysql.NewClient` succeeding, yields a pool in which
`GetMysqlClient("a")` and `GetMysqlClient("b")` return the clients built in the
iterations of `a` and of `b`; the first of them was built under the alias
`default`.  The pool has no entry for `default`: `GetMysqlClient("default")` is
nil. -/
theorem StartMysql_two_aliases (mysqlNewClient : String → ConfigMap → Ptr × Option String)
    (configA configB : ConfigMap) (order : List (String × Option ConfigMap))
    (this : Service)
    (horder : order = [("a", some configA), ("b", some configB)] ∨
      order = [("b", some configB), ("a", some configA)])
    (hok : ∀ aliasName config, (mysqlNewClient aliasName config).2 = none) :
    ∃ after, (StartMysql mysqlNewClient order this).result = .ok after ∧
      GetMysqlClient after "default" = none ∧
      (order = [("a", some configA), ("b", some configB)] →
        GetMysqlClient after "a" = (mysqlNewClient "default" configA).1 ∧
        GetMysqlClient after "b" = (mysqlNewClient "b" configB).1) ∧
      (order = [("b", some configB), ("a", some configA)] →
        GetMysqlClient after "b" = (mysqlNewClient "default" configB).1 ∧
        GetMysqlClient after "a" = (mysqlNewClient "a" configA).1) := by
  rcases horder with h | h
  · subst h
    refine ⟨{ this with dbClients :=
        ((GoMap.empty.set "a" (mysqlNewClient "default" configA).1).set "b"
          (mysqlNewClient "b" configB).1) }, ?_, ?_, ?_, ?_⟩
    · simp [StartMysql, startMysqlLoop, hok, CheckError]
    · simp [GetMysqlClient, GoMap.set, GoMap_empty_apply]
    · intro _
      simp [GetMysqlClient, GoMap.set]
    · intro h
      simp at h
  · subst h
    refine ⟨{ this with dbClients :=
        ((GoMap.empty.set "b" (mysqlNewClient "default" configB).1).set "a"
          (mysqlNewClient "a" configA).1) }, ?_, ?_, ?_, ?_⟩
    · simp [StartMysql, startMysqlLoop, hok, CheckError]
    · simp [GetMysqlClient, GoMap.set, GoMap_empty_apply]
    · intro h
      simp at h
    · intro _
      simp [GetMysqlClient, GoMap.set]

/-- C7, an instance: the login service, the order `a`, `b`, empty configuration
sections and `mysqlClients`. -/
theorem StartMysql_two_aliases_witness :
    ∃ after, (StartMysql mysqlClients [("a", some []), ("b", some [])] loginService).result
        = .ok after ∧
      GetMysqlClient after "default" = none ∧
      ([("a", some []), ("b", some [])] =
          [("a", (some [] : Option ConfigMap)), ("b", some [])] →
        GetMysqlClient after "a" = (mysqlClients "default" []).1 ∧
        GetMysqlClient after "b" = (mysqlClients "b" []).1) ∧
      ([("a", some []), ("b", some [])] =
          [("b", (some [] : Option ConfigMap)), ("a", some [])] →
        GetMysqlClient after "b" = (mysqlClients "default" []).1 ∧
        GetMysqlClient after "a" = (mysqlClients "a" []).1) :=
  StartMysql_two_aliases mysqlClients [] [] [("a", some []), ("b", some [])] loginService
    (Or.inl rfl) (fun _ _ => rfl)

/-- C7 fails as stated: after `StartMysql` over `a` then `b`, the client
constructed first is the client 1, returned by `GetMysqlClient("a")`, while
`GetMysqlClient("default")` returns nil. -/
theorem GetMysqlClient_default_is_nil :
    (StartMysql mysqlClients [("a", some []), ("b", some [])] loginService).result
        = .ok loginServiceWithMysql ∧
      (mysqlClients "default" []).1 = some 1 ∧
      GetMysqlClient loginServiceWithMysql "a" = some 1 ∧
      GetMysqlClient loginServiceWithMysql "b" = some 2 ∧
      GetMysqlClient loginServiceWithMysql "default" = none :=
  ⟨rfl, rfl, rfl, rfl, rfl⟩

/-! ### A second start of the IPC server -/

theorem registerService_result (consulNewServive : String → String → Int → String → Option String)
    (this after : Service) (serviceType servicePort : String)
    (h : (registerService consulNewServive this serviceType servicePort).result = .ok after) :
    (∃ bound, after.ports serviceType = some bound) ∧ after.ipcServer = this.ipcServer := by
  unfold registerService at h
  cases hp : this.ports serviceType with
  | some bound =>
    rw [hp] at h
    simp only [Except.ok.injEq] at h
    subst h
    exact ⟨⟨bound, hp⟩, rfl⟩
  | none =>
    rw [hp] at h
    cases hc : consulNewServive this.ip (packageServiceName serviceType this.name) this.id
        servicePort with
    | some err =>
      simp [hc, CheckError] at h
    | none =>
      simp only [hc, CheckError, Except.ok.injEq] at h
      subst h
      exact ⟨⟨servicePort, by simp [GoMap.set]⟩, rfl⟩

/-- C9, as amended: after one successful `StartIpcServer`, a second one whose
`ipc.InitServer` succeeds issues no discovery registration and leaves the ports
table, hence `Port` of the role type `IPC`, unchanged; `GetIpcServer()` then
returns the server of the second `ipc.InitServer`, where it returned the server
of the first one before. -/
theorem StartIpcServer_second_call (ServiceType : ServiceTypeConsts)
    (first second : Ptr × String × Option String)
    (consulFirst consulSecond : String → String → Int → String → Option String)
    (before this : Service)
    (hfirst : (StartIpcServer ServiceType first consulFirst before).result = .ok this)
    (hsecond : second.2.2 = none) :
    ∃ after, (StartIpcServer ServiceType second consulSecond this).result = .ok after ∧
      discoveryRegistrations
        (StartIpcServer ServiceType second consulSecond this).events = [] ∧
      after.ports = this.ports ∧
      Port after ServiceType.IPC = Port this ServiceType.IPC ∧
      GetIpcServer this = first.1 ∧
      GetIpcServer after = second.1 := by
  have hthis : (∃ bound, this.ports ServiceType.IPC = some bound) ∧
      this.ipcServer = first.1 := by
    unfold StartIpcServer at hfirst
    cases he : first.2.2 with
    | some err => simp [he, CheckError] at hfirst
    | none =>
      simp only [he, CheckError] at hfirst
      exact registerService_result consulFirst _ this ServiceType.IPC first.2.1 hfirst
  obtain ⟨⟨bound, hbound⟩, hserver⟩ := hthis
  refine ⟨{ this with ipcServer := second.1 }, ?_, ?_, rfl, rfl, hserver, rfl⟩
  · simp [StartIpcServer, hsecond, CheckError, registerService, hbound]
  · simp [StartIpcServer, hsecond, CheckError, registerService, hbound,
      discoveryRegistrations]

/-- C9, an instance: the login service starts its IPC server twice; the calls of
`ipc.InitServer` return the server 1 with port 9001, then the server 2 with
port 9002. -/
theorem StartIpcServer_second_call_witness :
    (StartIpcServer exampleTypes (some 1, "9001", none) consulAccepts loginService).result
        = .ok loginServiceIpcStarted ∧
    ∃ after, (StartIpcServer exampleTypes (some 2, "9002", none) consulAccepts
          loginServiceIpcStarted).result = .ok after ∧
      discoveryRegistrations
        (StartIpcServer exampleTypes (some 2, "9002", none) consulAccepts
          loginServiceIpcStarted).events = [] ∧
      after.ports = loginServiceIpcStarted.ports ∧
      Port after exampleTypes.IPC = Port loginServiceIpcStarted exampleTypes.IPC ∧
      GetIpcServer loginServiceIpcStarted = (some 1, "9001", (none : Option String)).1 ∧
      GetIpcServer after = (some 2, "9002", (none : Option String)).1 :=
  ⟨rfl,
   StartIpcServer_second_call exampleTypes (some 1, "9001", none) (some 2, "9002", none)
     consulAccepts consulAccepts loginService loginServiceIpcStarted rfl rfl⟩

/-- C9 fails as stated: the login service starts its IPC server twice, both
times with success; `GetIpcServer()` returns the server 1 after the first call
and the server 2 after the second, while `Port` of `IPC` stays 9001. -/
theorem GetIpcServer_changes_on_second_start :
    (StartIpcServer exampleTypes (some 1, "9001", none) consulAccepts loginService).result
        = .ok loginServiceIpcStarted ∧
      (StartIpcServer exampleTypes (some 2, "9002", none) consulAccepts
          loginServiceIpcStarted).result = .ok loginServiceIpcStartedAgain ∧
      GetIpcServer loginServiceIpcStarted = some 1 ∧
      GetIpcServer loginServiceIpcStartedAgain = some 2 ∧
      Port loginServiceIpcStarted "IPC" = "9001" ∧
      Port loginServiceIpcStartedAgain "IPC" = "9001" :=
  ⟨rfl, rfl, rfl, rfl, rfl, rfl⟩

end GoGameServer
